import Mathlib

/-!
Verification of the TensorFlowASR script collection: the dataset-preparation
pipeline (`create_tfrecords`), the text-featurizer selection logic of the
training/testing scripts, and the spec-level model of the record shard writer,
dataset loader and text featurizer contracts.

The four scripts under scrutiny are
`scripts/create_tfrecords.py`, `examples/conformer/train_subword_conformer.py`,
`examples/conformer/train_conformer_tpu_2.py` and `examples/jasper/test_jasper.py`.
Where the referenced library code (package `tensorflow_asr`) is not part of the
repository snapshot, the corresponding definitions are modelled from the design
spec and are marked as such in their doc comments.
-/

/-- The kinds of text featurizer the scripts can construct
(`CharFeaturizer`, `SubwordFeaturizer`, `SentencePieceFeaturizer`). -/
inductive FeaturizerKind
  | char
  | subword
  | sentencepiece
deriving DecidableEq, Repr

/-- Error taxonomy of the pipeline (spec section 7). -/
inductive PipelineError
  | PathError
  | VocabBuildError
  | MetadataMissingError
  | ShardWriteError
deriving DecidableEq, Repr

/-- Truthiness of an optional Python string: `None` and the empty string are
falsy, every other string is truthy; embeds the guard `args.subwords and ...`. -/
def strTruthy : Option String → Bool
  | none => false
  | some s => s != ""

/-- Embeds the text-featurizer construction of `scripts/create_tfrecords.py`
(lines 47-55): if `--sentence_piece` is passed, a SentencePiece model is loaded
from the `--subwords` path (`SentencePieceFeaturizer.load_from_file` is library
code outside the snapshot, modelled from the spec: it fails with
`VocabBuildError` when the vocabulary file is absent); otherwise, if
`--subwords` is a truthy path and the file exists, subwords are loaded; in
every remaining case the script prints a message and constructs a character
featurizer. -/
def buildTextFeaturizerCreate (pathExists : String → Bool) (sentencePiece : Bool)
    (subwords : Option String) : Except PipelineError FeaturizerKind :=
  if sentencePiece then
    match subwords with
    | some s =>
        if pathExists s then Except.ok FeaturizerKind.sentencepiece
        else Except.error PipelineError.VocabBuildError
    | none => Except.error PipelineError.VocabBuildError
  else if strTruthy subwords && pathExists (subwords.getD "") then
    Except.ok FeaturizerKind.subword
  else
    Except.ok FeaturizerKind.char

/-- Embeds the text-featurizer construction of
`examples/conformer/train_subword_conformer.py` (lines 68-80): like the
record-creation script for the first two branches, but the final branch calls
`SubwordFeaturizer.build_from_corpus` on `--subwords_corpus`
(library code outside the snapshot, modelled from the spec section 4.1: it
fails with `VocabBuildError` when no corpus files are reachable). -/
def buildTextFeaturizerSubwordConformer (pathExists : String → Bool) (sentencePiece : Bool)
    (subwords : Option String) (subwordsCorpus : List String) :
    Except PipelineError FeaturizerKind :=
  if sentencePiece then
    match subwords with
    | some s =>
        if pathExists s then Except.ok FeaturizerKind.sentencepiece
        else Except.error PipelineError.VocabBuildError
    | none => Except.error PipelineError.VocabBuildError
  else if strTruthy subwords && pathExists (subwords.getD "") then
    Except.ok FeaturizerKind.subword
  else if (subwordsCorpus.filter pathExists).isEmpty then
    Except.error PipelineError.VocabBuildError
  else
    Except.ok FeaturizerKind.subword

/-- Embeds line 67 of `examples/conformer/train_conformer_tpu_2.py`: the text
featurizer is constructed unconditionally as `CharFeaturizer`; the
`--sentence_piece` flag (line 31) and the `--subwords` flag (line 45) are
parsed but never consulted, which is why both arguments are ignored here. -/
def buildTextFeaturizerTpu (_sentencePiece : Bool) (_subwords : Option String) :
    FeaturizerKind :=
  FeaturizerKind.char

/-! ## Text featurizer model (vocabulary, encode, decode)

The featurizer classes live in `tensorflow_asr.featurizers.text_featurizers`,
which is not part of the repository snapshot; the model below follows the
design spec (sections 3, 4.2 and 8). -/

/-- Modelled from the spec (sections 3 and 4.2): the vocabulary held by a text
featurizer is an ordered mapping from token to integer id, the id of a token
being its position in the ordered token list. The token type is a parameter so
that the same model covers the character featurizer (tokens are characters)
and the subword/sentencepiece featurizers (tokens are subword strings). -/
structure Vocab (α : Type) where
  tokens : List α

variable {α : Type} [DecidableEq α]

/-- Modelled from the spec (section 4.2): the reserved explicit unknown id,
the first id past the vocabulary. -/
def Vocab.unknownId (v : Vocab α) : Nat :=
  v.tokens.length

/-- Modelled from the spec (section 4.2): a single token maps to its id in the
vocabulary; a token not present deterministically maps to the reserved unknown
id (`List.indexOf` returns the length of the list, i.e. `unknownId`, exactly
when the token is absent). -/
def Vocab.encode1 (v : Vocab α) (t : α) : Nat :=
  v.tokens.indexOf t

/-- Modelled from the spec (section 4.2): `encode` maps a tokenized transcript
to the sequence of its token ids; it is a total function (encoding never
raises). -/
def Vocab.encode (v : Vocab α) (ts : List α) : List Nat :=
  ts.map v.encode1

/-- Modelled from the spec (section 4.2): `decode` maps each valid id back to
its token (ids outside the vocabulary decode to nothing). -/
def Vocab.decode (v : Vocab α) (ids : List Nat) : List α :=
  ids.filterMap (fun i => v.tokens[i]?)

/-! ## Record shard writer model

`ASRTFRecordDataset.create_tfrecords` lives in
`tensorflow_asr.datasets.asr_dataset`, which is not part of the repository
snapshot (only its caller `scripts/create_tfrecords.py` is); the model below
follows the design spec (sections 3, 4.3 and 8). -/

/-- A serialized feature record: the token-id sequence of one utterance. -/
abbrev Record := List Nat

/-- The number of indices below `n` that round-robin to shard `i` of `k`. -/
def rrCount (k i n : Nat) : Nat :=
  ((List.range n).filter (fun j => j % k == i)).length

/-- Modelled from the spec (section 4.3 item 3): round-robin assignment of a
record list to `k` shards, the record at manifest position `j` going to shard
`j % k`, manifest order being preserved inside each shard. -/
def roundRobin (k : Nat) (rs : List Record) : List (List Record) :=
  (List.range k).map (fun i => (rs.enum.filter (fun p => p.1 % k == i)).map Prod.snd)

/-- A corpus manifest row: audio path and transcript text (spec section 3). -/
structure Row where
  audio_path : String
  transcript : String
deriving DecidableEq, Repr

/-- Modelled from the spec (section 3): rows whose audio path does not resolve
are rejected (not written); the accepted rows are kept in manifest order. -/
def acceptedRows (pathExists : String → Bool) (rows : List Row) : List Row :=
  rows.filter (fun r => pathExists r.audio_path)

/-- Modelled from the spec (sections 4.2 and 4.3): the accepted manifest rows,
featurized in manifest order. -/
def featurizedRecords (v : Vocab Char) (pathExists : String → Bool)
    (rows : List Row) : List Record :=
  (acceptedRows pathExists rows).map (fun r => v.encode r.transcript.data)

/-- Modelled from the spec (section 4.3): featurize the accepted rows and
round-robin them into `k` shards. -/
def createShards (v : Vocab Char) (pathExists : String → Bool) (k : Nat)
    (rows : List Row) : List (List Record) :=
  roundRobin k (featurizedRecords v pathExists rows)

/-- A file path, as a list of components (directory, stage, shard number). -/
abbrev FsPath := List String

/-- Modelled from the spec (section 6): shard file `i` of a stage lives in the
shard directory of the output directory and carries the shard number. -/
def shardPath (outDir stage : String) (i : Nat) : FsPath :=
  [outDir, stage, toString i]

/-- The mutable state the record shard writer acts on: the file system plus
the manifest and the vocabulary held by the text featurizer (spec sections 3
and 4.3). -/
structure PipelineState where
  files : FsPath → Option (List Record)
  manifest : List Row
  vocabTokens : List Char

/-- Modelled from the spec (section 4.3 item 2): the explicit skip condition —
the output directory already contains `shard_count` NON-EMPTY shard files for
the stage (not merely existing files). -/
def shardsComplete (files : FsPath → Option (List Record)) (outDir stage : String)
    (k : Nat) : Bool :=
  (List.range k).all (fun i =>
    match files (shardPath outDir stage i) with
    | some rs => !rs.isEmpty
    | none => false)

/-- Write one file: the map is updated at exactly one path. -/
def writeFile (p : FsPath) (c : List Record) (files : FsPath → Option (List Record)) :
    FsPath → Option (List Record) :=
  fun q => if q = p then some c else files q

/-- Write every shard to its numbered shard file under the output directory. -/
def writeShards (outDir stage : String) (shards : List (List Record))
    (files : FsPath → Option (List Record)) : FsPath → Option (List Record) :=
  shards.enum.foldl (fun acc pc => writeFile (shardPath outDir stage pc.1) pc.2 acc) files

/-- Modelled from the spec (section 4.3): `create_tfrecords` skips regeneration
when the shard set is already complete; otherwise it featurizes the accepted
manifest rows, optionally shuffles them (the shuffle permutation is an explicit
parameter), round-robins them into `shard_count` shards and writes the shard
files under the output directory. The manifest and the vocabulary are only
read. -/
def create_tfrecords (v : Vocab Char) (pathExists : String → Bool)
    (outDir stage : String) (k : Nat) (shuffle : Bool)
    (perm : List Record → List Record) (st : PipelineState) : PipelineState :=
  if shardsComplete st.files outDir stage k then st
  else
    { files := writeShards outDir stage
        (roundRobin k (if shuffle then perm (featurizedRecords v pathExists st.manifest)
                       else featurizedRecords v pathExists st.manifest)) st.files,
      manifest := st.manifest,
      vocabTokens := st.vocabTokens }

/-! ## Dataset loader metadata model (spec sections 3 and 4.4) -/

/-- Modelled from the spec (section 3): the persisted per-stage Metadata
summary consumed by the dataset loader. -/
structure Metadata where
  record_count : Nat
  max_input_length : Nat
  max_label_length : Nat
deriving DecidableEq, Repr

/-- Modelled from the spec (section 4.4): `total_steps` as computed from
persisted Metadata, the number of batches of size `batch_size` needed to cover
`record_count` records; this is the value the training script forwards to
`fit` as `steps_per_epoch` (`train_conformer_tpu_2.py` line 131). -/
def total_steps (md : Metadata) (batch_size : Nat) : Nat :=
  (md.record_count + batch_size - 1) / batch_size

/-! ## The Jasper test script as an effect trace (test_jasper.py) -/

/-- The CLI arguments of `examples/jasper/test_jasper.py` (lines 28-38). -/
structure JasperArgs where
  config : String
  saved : Option String
  tfrecords : Bool
  mxp : Bool
  device : Nat
  output_name : String

/-- One top-level effectful statement of `examples/jasper/test_jasper.py`. -/
inductive JasperStep
  | clearSession
  | setMixedPrecision (mxp : Bool)
  | setupDevices (d : Nat)
  | setSeed (n : Nat)
  | buildModel (cfg : String)
  | loadWeights (p : Option String)
  | buildTestDataset (tfr : Bool)
  | compileTester
  | runTester (outputName : String)
deriving DecidableEq, Repr

/-- Embeds the top-level effectful statements of `examples/jasper/test_jasper.py`
in program order: `tf.keras.backend.clear_session()` (line 24), the
mixed-precision option (line 42), `setup_devices` (line 44),
`tf.random.set_seed(0)` (line 53), model construction (lines 60-61), weight
loading (line 62), test-dataset construction (lines 66-75), tester compilation
(line 81) and the tester run (line 82). -/
def jasperTestScript (a : JasperArgs) : List JasperStep :=
  [JasperStep.clearSession,
   JasperStep.setMixedPrecision a.mxp,
   JasperStep.setupDevices a.device,
   JasperStep.setSeed 0,
   JasperStep.buildModel a.config,
   JasperStep.loadWeights a.saved,
   JasperStep.buildTestDataset a.tfrecords,
   JasperStep.compileTester,
   JasperStep.runTester a.output_name]

/-- The external framework treated as a black box (spec section 6), with every
operation a deterministic function of its arguments and of the current global
RNG state: framework randomness is fully determined by the seed. -/
structure TFEnv where
  initWeights : Nat → String → Nat
  nextRng : Nat → Nat
  loadSaved : Option String → Nat → Nat
  datasetOf : Bool → Nat
  testResults : Nat → Nat → Nat → Nat

/-- The abstract run state of the script: global RNG state, built model,
built dataset and the produced test output. -/
structure TFRunState where
  rng : Nat
  model : Option Nat
  dataset : Option Nat
  output : Option Nat
deriving DecidableEq, Repr

/-- Semantics of one script step over the abstract run state; the steps that
consume randomness (`buildModel`, `runTester`) draw from the current RNG
state. -/
def jasperStepRun (env : TFEnv) (st : TFRunState) : JasperStep → TFRunState
  | JasperStep.clearSession => st
  | JasperStep.setMixedPrecision _ => st
  | JasperStep.setupDevices _ => st
  | JasperStep.setSeed n => { st with rng := n }
  | JasperStep.buildModel cfg =>
      { st with model := some (env.initWeights st.rng cfg), rng := env.nextRng st.rng }
  | JasperStep.loadWeights p => { st with model := st.model.map (env.loadSaved p) }
  | JasperStep.buildTestDataset b => { st with dataset := some (env.datasetOf b) }
  | JasperStep.compileTester => st
  | JasperStep.runTester _ =>
      { st with output := some (env.testResults st.rng (st.model.getD 0) (st.dataset.getD 0)) }

/-- Run the whole Jasper test script from an arbitrary initial RNG state. -/
def runJasperTest (env : TFEnv) (a : JasperArgs) (initRng : Nat) : TFRunState :=
  (jasperTestScript a).foldl (jasperStepRun env) ⟨initRng, none, none, none⟩

/-! ## The record-creation CLI mode flag (create_tfrecords.py) -/

/-- Embeds the argparse handling of the `--mode`/`-m` option of
`scripts/create_tfrecords.py` (line 24): type `str`, default `None`, no
`choices` restriction, later occurrences overriding earlier ones. -/
def parseModeFrom (acc : Option String) : List String → Option String
  | [] => acc
  | [_] => acc
  | a :: v :: rest =>
      if a = "--mode" ∨ a = "-m" then parseModeFrom (some v) rest
      else parseModeFrom acc (v :: rest)

/-- The parsed value of `--mode`: `none` when the flag is absent. -/
def parseModeFlag (argv : List String) : Option String :=
  parseModeFrom none argv

/-- The stages for which the pipeline has a meaning (spec glossary); the
mode flag is NOT checked against this set anywhere in the script. -/
def validStages : List String :=
  ["train", "eval", "test"]

/-- The constructor arguments the script hands to `ASRTFRecordDataset`
(`scripts/create_tfrecords.py` lines 57-61). -/
structure ASRTFRecordDatasetArgs where
  stage : Option String
  shuffle : Bool
  tfrecords_shards : Nat
deriving DecidableEq, Repr

/-- Embeds lines 57-61 of `scripts/create_tfrecords.py`: the parsed mode is
forwarded unchanged as the `stage` argument; the script contains no validation
of the mode and no error path, hence the result is always `ok`. -/
def scriptDatasetConstruction (mode : Option String) (shuffle : Bool)
    (shards : Nat) : Except PipelineError ASRTFRecordDatasetArgs :=
  Except.ok { stage := mode, shuffle := shuffle, tfrecords_shards := shards }

/-- A concrete 10-row manifest (rows p0..p9 with one-digit transcripts),
used to instantiate the sharding theorems. -/
def rowsTen : List Row :=
  [Row.mk "p0" "0", Row.mk "p1" "1", Row.mk "p2" "2", Row.mk "p3" "3",
   Row.mk "p4" "4", Row.mk "p5" "5", Row.mk "p6" "6", Row.mk "p7" "7",
   Row.mk "p8" "8", Row.mk "p9" "9"]

/-- A concrete character vocabulary holding the ten digits. -/
def digitVocab : Vocab Char :=
  Vocab.mk ['0', '1', '2', '3', '4', '5', '6', '7', '8', '9']

/-! # Theorems -/

/-- C1 counterexample: in `scripts/create_tfrecords.py`, selecting subword mode
(`--subwords subwords.txt`) while no file at all is reachable (so neither the
vocabulary file nor any corpus file exists) does NOT fail with
`VocabBuildError`: the script silently falls back to the character
featurizer. -/
theorem create_tfrecords_subword_fallback_no_error :
    buildTextFeaturizerCreate (fun _ => false) false (some "subwords.txt")
      = Except.ok FeaturizerKind.char ∧
    buildTextFeaturizerCreate (fun _ => false) false (some "subwords.txt")
      ≠ Except.error PipelineError.VocabBuildError := by
  constructor
  · rfl
  · intro h
    exact Except.noConfusion h

/-- C1 (amended): when no corpus file is reachable and no vocabulary file
exists, both scripts fail with `VocabBuildError` in explicit sentencepiece
mode (whether or not a subwords path was given), and the subword-conformer
training script also fails with `VocabBuildError` in subword mode; but
`scripts/create_tfrecords.py` in subword mode does NOT fail: it silently
falls back to the character featurizer. -/
theorem subword_mode_missing_vocab_behavior (pathExists : String → Bool)
    (p : String) (corpus : List String) (sw : Option String)
    (hp : pathExists p = false)
    (hc : ∀ c ∈ corpus, pathExists c = false)
    (hsw : ∀ s, sw = some s → pathExists s = false) :
    buildTextFeaturizerSubwordConformer pathExists false (some p) corpus
      = Except.error PipelineError.VocabBuildError ∧
    buildTextFeaturizerSubwordConformer pathExists true sw corpus
      = Except.error PipelineError.VocabBuildError ∧
    buildTextFeaturizerCreate pathExists false (some p)
      = Except.ok FeaturizerKind.char ∧
    buildTextFeaturizerCreate pathExists true sw
      = Except.error PipelineError.VocabBuildError := by
  have hguard : (strTruthy (some p) && pathExists ((some p).getD "")) = false := by
    simp [Option.getD, hp]
  have hfilter : (corpus.filter pathExists).isEmpty = true := by
    rw [List.isEmpty_iff, List.filter_eq_nil_iff]
    intro a ha
    simp [hc a ha]
  refine ⟨?_, ?_, ?_, ?_⟩
  · simp only [buildTextFeaturizerSubwordConformer, if_neg (Bool.false_ne_true),
      Bool.false_eq_true, if_false, hguard, hfilter, if_true]
  · cases sw with
    | none => rfl
    | some s => simp [buildTextFeaturizerSubwordConformer, hsw s rfl]
  · simp only [buildTextFeaturizerCreate, Bool.false_eq_true, if_false, hguard]
  · cases sw with
    | none => rfl
    | some s => simp [buildTextFeaturizerCreate, hsw s rfl]

/-- Witness for `subword_mode_missing_vocab_behavior` at a concrete input:
no file is reachable, the subwords path is `subwords.txt`, the corpus is
`corpus.tsv`. -/
theorem subword_mode_missing_vocab_behavior_witness :
    buildTextFeaturizerSubwordConformer (fun _ => false) false (some "subwords.txt")
        ["corpus.tsv"]
      = Except.error PipelineError.VocabBuildError ∧
    buildTextFeaturizerSubwordConformer (fun _ => false) true (some "subwords.txt")
        ["corpus.tsv"]
      = Except.error PipelineError.VocabBuildError ∧
    buildTextFeaturizerCreate (fun _ => false) false (some "subwords.txt")
      = Except.ok FeaturizerKind.char ∧
    buildTextFeaturizerCreate (fun _ => false) true (some "subwords.txt")
      = Except.error PipelineError.VocabBuildError :=
  subword_mode_missing_vocab_behavior (fun _ => false) "subwords.txt" ["corpus.tsv"]
    (some "subwords.txt") rfl (by intro c _; rfl) (by intro s _; rfl)

/-- C2: in `examples/conformer/train_conformer_tpu_2.py`, passing
`--sentence_piece` (here together with a subwords path) still yields a
character featurizer, never a SentencePiece featurizer: the flag is parsed but
ignored by the script. -/
theorem tpu_script_ignores_sentence_piece_flag :
    buildTextFeaturizerTpu true (some "librispeech.model") = FeaturizerKind.char ∧
    buildTextFeaturizerTpu true (some "librispeech.model") ≠ FeaturizerKind.sentencepiece := by
  constructor
  · rfl
  · decide

/-- C6: round trip of the text featurizer: for every tokenized transcript all
of whose tokens are covered by the vocabulary, `decode (encode ts) = ts`,
uniformly in the token type (characters for the character featurizer, subword
strings for the subword and sentencepiece featurizers). -/
theorem decode_encode_roundTrip (v : Vocab α) (ts : List α)
    (h : ∀ t ∈ ts, t ∈ v.tokens) :
    v.decode (v.encode ts) = ts := by
  induction ts with
  | nil => rfl
  | cons a as ih =>
      have ha : a ∈ v.tokens := h a (List.mem_cons_self a as)
      have has : ∀ t ∈ as, t ∈ v.tokens := fun t ht => h t (List.mem_cons_of_mem a ht)
      simp only [Vocab.encode, Vocab.decode, List.map_cons, List.filterMap_cons,
        Vocab.encode1, List.getElem?_indexOf ha]
      exact congrArg (List.cons a) (ih has)

/-- Witness for `decode_encode_roundTrip`: character vocabulary a, b, c and
the transcript "abc". -/
theorem decode_encode_roundTrip_witness :
    (Vocab.mk ['a', 'b', 'c']).decode
        ((Vocab.mk ['a', 'b', 'c']).encode ['a', 'b', 'c']) = ['a', 'b', 'c'] :=
  decode_encode_roundTrip (Vocab.mk ['a', 'b', 'c']) ['a', 'b', 'c'] (by decide)

/-- C7: encoding is total and safe: it never fails, it preserves length, and
position by position the produced id equals the reserved unknown id exactly
when the corresponding token is not in the vocabulary (known tokens get their
vocabulary id, which is strictly below `unknownId`). -/
theorem encode_total_unknown_id (v : Vocab α) (ts : List α) (i : Nat)
    (hi : i < ts.length) :
    (v.encode ts).length = ts.length ∧
    (v.encode ts)[i]? = some (v.encode1 ts[i]) ∧
    (v.encode1 ts[i] = v.unknownId ↔ ts[i] ∉ v.tokens) ∧
    (ts[i] ∈ v.tokens → v.encode1 ts[i] < v.unknownId) := by
  refine ⟨List.length_map ts v.encode1, ?_, ?_, ?_⟩
  · simp only [Vocab.encode]
    rw [List.getElem?_map, List.getElem?_eq_getElem hi]
    rfl
  · simp only [Vocab.encode1, Vocab.unknownId]
    constructor
    · intro h hmem
      have hlt := List.indexOf_lt_length.mpr hmem
      omega
    · intro hmem
      have hle := @List.indexOf_le_length _ _ ts[i] v.tokens
      have hnlt : ¬ v.tokens.indexOf ts[i] < v.tokens.length := fun hlt =>
        hmem (List.indexOf_lt_length.mp hlt)
      omega
  · intro hmem
    simp only [Vocab.encode1, Vocab.unknownId]
    exact List.indexOf_lt_length.mpr hmem

/-- Witness for `encode_total_unknown_id`: vocabulary a, b, c, transcript
"axc", position 1 (the unseen character x maps to the unknown id 3). -/
theorem encode_total_unknown_id_witness :
    ((Vocab.mk ['a', 'b', 'c']).encode ['a', 'x', 'c']).length = 3 ∧
    ((Vocab.mk ['a', 'b', 'c']).encode ['a', 'x', 'c'])[1]?
      = some ((Vocab.mk ['a', 'b', 'c']).encode1 'x') ∧
    ((Vocab.mk ['a', 'b', 'c']).encode1 'x' = (Vocab.mk ['a', 'b', 'c']).unknownId
      ↔ 'x' ∉ (Vocab.mk ['a', 'b', 'c']).tokens) ∧
    ('x' ∈ (Vocab.mk ['a', 'b', 'c']).tokens →
      (Vocab.mk ['a', 'b', 'c']).encode1 'x' < (Vocab.mk ['a', 'b', 'c']).unknownId) :=
  encode_total_unknown_id (Vocab.mk ['a', 'b', 'c']) ['a', 'x', 'c'] 1 (by decide)

/-! ### Arithmetic of round-robin sharding -/

/-- The length of shard `i` produced by round-robin assignment is the number
of manifest positions below the record count that are congruent to `i`. -/
theorem shardContentLength (k i : Nat) (rs : List Record) :
    ((rs.enum.filter (fun p => p.1 % k == i)).map Prod.snd).length
      = rrCount k i rs.length := by
  simp only [rrCount, List.length_map, ← List.countP_eq_length_filter]
  rw [← List.enum_map_fst rs, List.countP_map]
  rfl

/-- The shard-size list of a round-robin split, expressed through `rrCount`. -/
theorem roundRobin_sizes (k : Nat) (rs : List Record) :
    (roundRobin k rs).map List.length
      = (List.range k).map (fun i => rrCount k i rs.length) := by
  rw [roundRobin, List.map_map]
  exact List.map_congr_left (fun i _ => shardContentLength k i rs)

/-- Reading position `i < k` of a map over `List.range k`. -/
theorem getD_map_range (f : Nat → Nat) (k i : Nat) (h : i < k) :
    ((List.range k).map f).getD i 0 = f i := by
  rw [List.getD_eq_getElem?_getD, List.getElem?_map, List.getElem?_range h]
  rfl

/-- Successor step of remainders by a positive modulus. -/
theorem succ_mod_eq (n k : Nat) (hk : 0 < k) :
    (n + 1) % k = if n % k + 1 = k then 0 else n % k + 1 := by
  have hdm : k * (n / k) + n % k = n := Nat.div_add_mod n k
  have h2 : n + 1 = (n % k + 1) + (n / k) * k := by
    have hcomm : (n / k) * k = k * (n / k) := Nat.mul_comm _ _
    omega
  by_cases hc : n % k + 1 = k
  · rw [if_pos hc, h2, hc, Nat.add_mul_mod_self_right, Nat.mod_self]
  · have hlt : n % k + 1 < k := by
      have := Nat.mod_lt n hk
      omega
    rw [if_neg hc, h2, Nat.add_mul_mod_self_right, Nat.mod_eq_of_lt hlt]

/-- Successor step of quotients by a positive modulus. -/
theorem succ_div_eq (n k : Nat) (hk : 0 < k) :
    (n + 1) / k = if n % k + 1 = k then n / k + 1 else n / k := by
  rw [Nat.succ_div]
  by_cases hc : n % k + 1 = k
  · have hdm : k * (n / k) + n % k = n := Nat.div_add_mod n k
    have hdvd : k ∣ n + 1 := ⟨n / k + 1, by rw [Nat.mul_succ]; omega⟩
    rw [if_pos hdvd, if_pos hc]
  · have hnd : ¬ k ∣ n + 1 := by
      intro hd
      have h0 : (n + 1) % k = 0 := Nat.dvd_iff_mod_eq_zero.mp hd
      rw [succ_mod_eq n k hk, if_neg hc] at h0
      omega
    rw [if_neg hnd, if_neg hc, Nat.add_zero]

/-- One more manifest position lands in exactly the shard `n % k`. -/
theorem rrCount_succ (k i n : Nat) :
    rrCount k i (n + 1) = rrCount k i n + if n % k == i then 1 else 0 := by
  simp only [rrCount, List.range_succ, List.filter_append, List.length_append,
    List.filter_singleton]
  cases h : (n % k == i) <;> simp [h]

/-- Closed form of the round-robin shard size: every shard gets `n / k`
records, and the first `n % k` shards get one more. -/
theorem rrCount_closed (k i n : Nat) (hik : i < k) :
    rrCount k i n = n / k + if i < n % k then 1 else 0 := by
  have hk : 0 < k := Nat.lt_of_le_of_lt (Nat.zero_le i) hik
  induction n with
  | zero => simp [rrCount]
  | succ n ih =>
      rw [rrCount_succ, ih, succ_div_eq n k hk, succ_mod_eq n k hk]
      have hmod : n % k < k := Nat.mod_lt n hk
      simp only [beq_iff_eq]
      split_ifs <;> omega

/-- Sums over `List.range` coincide with `Finset.range` sums. -/
theorem sum_map_range_eq (f : Nat → Nat) (k : Nat) :
    ((List.range k).map f).sum = ∑ i ∈ Finset.range k, f i := by
  induction k with
  | zero => rfl
  | succ k ih =>
      rw [List.range_succ, List.map_append, List.sum_append, Finset.sum_range_succ, ih]
      simp

/-- Round-robin assignment loses no record: the shard sizes sum to the record
count. -/
theorem rrCount_sum (k n : Nat) (hk : 0 < k) :
    ∑ i ∈ Finset.range k, rrCount k i n = n := by
  induction n with
  | zero => simp [rrCount]
  | succ n ih =>
      have hstep : ∀ i, rrCount k i (n + 1) = rrCount k i n + if n % k = i then 1 else 0 := by
        intro i
        rw [rrCount_succ]
        simp [beq_iff_eq]
      calc ∑ i ∈ Finset.range k, rrCount k i (n + 1)
          = ∑ i ∈ Finset.range k, (rrCount k i n + if n % k = i then 1 else 0) :=
            Finset.sum_congr rfl (fun i _ => hstep i)
        _ = (∑ i ∈ Finset.range k, rrCount k i n)
              + ∑ i ∈ Finset.range k, (if n % k = i then 1 else 0) :=
            Finset.sum_add_distrib
        _ = n + 1 := by
            rw [ih, Finset.sum_ite_eq]
            simp [Finset.mem_range.mpr (Nat.mod_lt n hk)]

/-- A list splits into the rows kept and the rows rejected by a predicate. -/
theorem length_filter_add_length_filter_not (p : Row → Bool) (l : List Row) :
    (l.filter p).length + (l.filter (fun a => !p a)).length = l.length := by
  induction l with
  | nil => rfl
  | cons a t ih =>
      cases h : p a <;> (simp [List.filter_cons, h]; omega)

/-- C4: for every shard count `k ≥ 1` and every manifest, `create_tfrecords`
without shuffling produces exactly `k` shards whose record counts pairwise
differ by at most 1 and sum to the manifest size minus the rejected rows. -/
theorem create_tfrecords_shard_balance (v : Vocab Char) (pathExists : String → Bool)
    (k : Nat) (rows : List Row) (hk : 1 ≤ k) :
    (createShards v pathExists k rows).length = k ∧
    (∀ i j, i < k → j < k →
      ((createShards v pathExists k rows).map List.length).getD i 0
        ≤ ((createShards v pathExists k rows).map List.length).getD j 0 + 1) ∧
    ((createShards v pathExists k rows).map List.length).sum
      = rows.length - (rows.filter (fun r => !pathExists r.audio_path)).length := by
  have hk0 : 0 < k := hk
  have hsizes : (createShards v pathExists k rows).map List.length
      = (List.range k).map
          (fun i => rrCount k i (featurizedRecords v pathExists rows).length) := by
    rw [createShards]
    exact roundRobin_sizes k _
  refine ⟨?_, ?_, ?_⟩
  · rw [createShards, roundRobin, List.length_map, List.length_range]
  · intro i j hi hj
    rw [hsizes, getD_map_range _ k i hi, getD_map_range _ k j hj,
      rrCount_closed k i _ hi, rrCount_closed k j _ hj]
    split_ifs <;> omega
  · rw [hsizes, sum_map_range_eq, rrCount_sum k _ hk0]
    have hlen : (featurizedRecords v pathExists rows).length
        = (rows.filter (fun r => pathExists r.audio_path)).length := by
      rw [featurizedRecords, List.length_map, acceptedRows]
    have hpart := length_filter_add_length_filter_not
      (fun r => pathExists r.audio_path) rows
    omega

/-- Witness for `create_tfrecords_shard_balance`: 10 records over 4 shards
give sizes 3, 3, 2, 2, assigned round-robin in manifest order. -/
theorem create_tfrecords_shard_balance_witness :
    (1 ≤ 4 ∧
      (createShards digitVocab (fun _ => true) 4 rowsTen).length = 4 ∧
      ((createShards digitVocab (fun _ => true) 4 rowsTen).map List.length).sum
        = rowsTen.length
          - (rowsTen.filter (fun r => !(fun _ : String => true) r.audio_path)).length ∧
      ((createShards digitVocab (fun _ => true) 4 rowsTen).map List.length).getD 0 0
        ≤ ((createShards digitVocab (fun _ => true) 4 rowsTen).map List.length).getD 3 0
            + 1) ∧
    ((createShards digitVocab (fun _ => true) 4 rowsTen).map List.length) = [3, 3, 2, 2] ∧
    createShards digitVocab (fun _ => true) 4 rowsTen
      = [[[0], [4], [8]], [[1], [5], [9]], [[2], [6]], [[3], [7]]] := by
  have h := create_tfrecords_shard_balance digitVocab (fun _ => true) 4 rowsTen
    (by decide)
  exact ⟨⟨by decide, h.1, h.2.2, h.2.1 0 3 (by decide) (by decide)⟩, by decide, by decide⟩

/-- C3: when the output directory already contains `shard_count` non-empty
shard files for the stage, `create_tfrecords` is a no-op: the whole pipeline
state (in particular every shard file's content) is returned unchanged, so a
second invocation with identical inputs performs no writes. -/
theorem create_tfrecords_complete_skip (v : Vocab Char) (pathExists : String → Bool)
    (outDir stage : String) (k : Nat) (shuffle : Bool)
    (perm : List Record → List Record) (st : PipelineState)
    (h : shardsComplete st.files outDir stage k = true) :
    create_tfrecords v pathExists outDir stage k shuffle perm st = st := by
  simp [create_tfrecords, h]

/-- Witness for `create_tfrecords_complete_skip`: a state whose single shard
file for stage train is present and non-empty is returned unchanged. -/
theorem create_tfrecords_complete_skip_witness :
    shardsComplete
        (fun p => if p = ["records", "train", "0"] then some [[1]] else none)
        "records" "train" 1 = true ∧
    create_tfrecords digitVocab (fun _ => true) "records" "train" 1 false id
        (PipelineState.mk
          (fun p => if p = ["records", "train", "0"] then some [[1]] else none)
          rowsTen ['a'])
      = PipelineState.mk
          (fun p => if p = ["records", "train", "0"] then some [[1]] else none)
          rowsTen ['a'] := by
  have hc : shardsComplete
      (fun p => if p = ["records", "train", "0"] then some [[1]] else none)
      "records" "train" 1 = true := by decide
  exact ⟨hc, create_tfrecords_complete_skip digitVocab (fun _ => true) "records" "train"
    1 false id _ hc⟩

/-- Folding shard writes over the file system changes no path outside the
output directory (every shard path starts with the output directory). -/
theorem foldl_writeFile_outside (outDir stage : String)
    (l : List (Nat × List Record)) (files : FsPath → Option (List Record))
    (p : FsPath) (hp : p.head? ≠ some outDir) :
    l.foldl (fun acc pc => writeFile (shardPath outDir stage pc.1) pc.2 acc) files p
      = files p := by
  induction l generalizing files with
  | nil => rfl
  | cons pc t ih =>
      rw [List.foldl_cons, ih]
      simp only [writeFile]
      rw [if_neg]
      intro he
      apply hp
      rw [he]
      rfl

/-- C8: frame condition of `create_tfrecords`: the manifest and the
vocabulary held by the text featurizer are unchanged by the call, and no file
outside the output directory is touched — its only side effect is writing
files under `output_dir`. -/
theorem create_tfrecords_frame (v : Vocab Char) (pathExists : String → Bool)
    (outDir stage : String) (k : Nat) (shuffle : Bool)
    (perm : List Record → List Record) (st : PipelineState) :
    (create_tfrecords v pathExists outDir stage k shuffle perm st).manifest
      = st.manifest ∧
    (create_tfrecords v pathExists outDir stage k shuffle perm st).vocabTokens
      = st.vocabTokens ∧
    ∀ p : FsPath, p.head? ≠ some outDir →
      (create_tfrecords v pathExists outDir stage k shuffle perm st).files p
        = st.files p := by
  by_cases hc : shardsComplete st.files outDir stage k = true
  · simp [create_tfrecords, hc]
  · have hc' : shardsComplete st.files outDir stage k = false :=
      Bool.eq_false_iff.mpr hc
    refine ⟨?_, ?_, ?_⟩
    · simp [create_tfrecords, hc']
    · simp [create_tfrecords, hc']
    · intro p hp
      simp only [create_tfrecords, hc', Bool.false_eq_true, if_false, writeShards]
      exact foldl_writeFile_outside outDir stage _ st.files p hp

/-- Witness for `create_tfrecords_frame`: with a fresh file system, a run over
the ten-row manifest leaves the manifest, the vocabulary, and a file outside
the output directory untouched. -/
theorem create_tfrecords_frame_witness :
    (["elsewhere"] : FsPath).head? ≠ some "records" ∧
    (create_tfrecords digitVocab (fun _ => true) "records" "train" 4 false id
        (PipelineState.mk (fun _ => none) rowsTen ['a'])).files ["elsewhere"]
      = (PipelineState.mk (fun _ => none) rowsTen ['a']).files ["elsewhere"] ∧
    (create_tfrecords digitVocab (fun _ => true) "records" "train" 4 false id
        (PipelineState.mk (fun _ => none) rowsTen ['a'])).manifest = rowsTen ∧
    (create_tfrecords digitVocab (fun _ => true) "records" "train" 4 false id
        (PipelineState.mk (fun _ => none) rowsTen ['a'])).vocabTokens = ['a'] := by
  have h := create_tfrecords_frame digitVocab (fun _ => true) "records" "train" 4
    false id (PipelineState.mk (fun _ => none) rowsTen ['a'])
  have hne : (["elsewhere"] : FsPath).head? ≠ some "records" := by decide
  exact ⟨hne, h.2.2 ["elsewhere"] hne, h.1, h.2.1⟩

/-- C5: `total_steps` computed from Metadata is exactly the ceiling of
`record_count / batch_size`. -/
theorem total_steps_eq_ceil (md : Metadata) (b : Nat) (hb : 1 ≤ b) :
    total_steps md b = ⌈(md.record_count : ℚ) / (b : ℚ)⌉₊ := by
  have hb0 : (0 : ℚ) < (b : ℚ) := by exact_mod_cast hb
  apply le_antisymm
  · have hc := Nat.le_ceil ((md.record_count : ℚ) / (b : ℚ))
    set c := ⌈(md.record_count : ℚ) / (b : ℚ)⌉₊ with hcdef
    have hnc : (md.record_count : ℚ) ≤ (c : ℚ) * (b : ℚ) := by
      rw [div_le_iff₀ hb0] at hc
      exact hc
    have hnc' : md.record_count ≤ c * b := by exact_mod_cast hnc
    have hmul : c * b + b = (c + 1) * b := by ring
    have hlt : md.record_count + b - 1 < (c + 1) * b := by omega
    rw [total_steps]
    exact Nat.lt_succ_iff.mp ((Nat.div_lt_iff_lt_mul (by omega)).mpr hlt)
  · rw [Nat.ceil_le, div_le_iff₀ hb0]
    have h1 : md.record_count ≤ total_steps md b * b := by
      rw [total_steps]
      have hdm : b * ((md.record_count + b - 1) / b) + (md.record_count + b - 1) % b
          = md.record_count + b - 1 := Nat.div_add_mod _ _
      have hmlt : (md.record_count + b - 1) % b < b := Nat.mod_lt _ (by omega)
      have hcomm : ((md.record_count + b - 1) / b) * b
          = b * ((md.record_count + b - 1) / b) := Nat.mul_comm _ _
      omega
    exact_mod_cast h1

/-- Witness for `total_steps_eq_ceil`: 1000 records with batch size 32 give
32 steps. -/
theorem total_steps_eq_ceil_witness :
    (1 ≤ 32 ∧
      total_steps (Metadata.mk 1000 0 0) 32 = ⌈(1000 : ℚ) / (32 : ℚ)⌉₊) ∧
    total_steps (Metadata.mk 1000 0 0) 32 = 32 := by
  have h := total_steps_eq_ceil (Metadata.mk 1000 0 0) 32 (by decide)
  refine ⟨⟨by decide, ?_⟩, by decide⟩
  have h1000 : ((Metadata.mk 1000 0 0).record_count : ℚ) = (1000 : ℚ) := by norm_num
  rw [← h1000]
  exact h

/-- C9: `test_jasper.py` sets the global random seed to 0 (script position 3)
strictly before building the model (position 4) and running the tester
(position 8); consequently the output of the test run does not depend on the
prior global RNG state: two runs with identical arguments and identical
external inputs produce identical outputs. -/
theorem jasper_test_seeded_deterministic (env : TFEnv) (a : JasperArgs)
    (r1 r2 : Nat) :
    (jasperTestScript a)[3]? = some (JasperStep.setSeed 0) ∧
    (jasperTestScript a)[4]? = some (JasperStep.buildModel a.config) ∧
    (jasperTestScript a)[8]? = some (JasperStep.runTester a.output_name) ∧
    (runJasperTest env a r1).output = (runJasperTest env a r2).output :=
  ⟨rfl, rfl, rfl, rfl⟩

/-- Unfolding of `parseModeFrom` at an argument vector of length at least
two. -/
theorem parseModeFrom_cons2 (acc : Option String) (a v : String)
    (rest : List String) :
    parseModeFrom acc (a :: v :: rest)
      = if a = "--mode" ∨ a = "-m" then parseModeFrom (some v) rest
        else parseModeFrom acc (v :: rest) :=
  rfl

/-- The `--mode` option contributes its default (`None`) when absent from the
command line, whatever the accumulated value. -/
theorem parseModeFrom_no_flag (argv : List String) (acc : Option String)
    (h1 : "--mode" ∉ argv) (h2 : "-m" ∉ argv) :
    parseModeFrom acc argv = acc := by
  induction argv generalizing acc with
  | nil => rfl
  | cons a rest ih =>
      have ha1 : a ≠ "--mode" := fun he => h1 (he ▸ List.mem_cons_self a rest)
      have ha2 : a ≠ "-m" := fun he => h2 (he ▸ List.mem_cons_self a rest)
      have hrest1 : "--mode" ∉ rest := fun hm => h1 (List.mem_cons_of_mem a hm)
      have hrest2 : "-m" ∉ rest := fun hm => h2 (List.mem_cons_of_mem a hm)
      cases rest with
      | nil => rfl
      | cons v rest2 =>
          rw [parseModeFrom_cons2, if_neg (not_or.mpr ⟨ha1, ha2⟩)]
          apply ih <;> assumption

/-- C10: the record-creation CLI performs no validation of `--mode`: when the
flag is absent the parsed mode is `None`, and whatever the mode value — `None`
or a string outside the valid stages — it is forwarded unchanged as the
`stage` argument of `ASRTFRecordDataset`, the construction never erroring. -/
theorem mode_flag_not_validated (argv : List String)
    (h1 : "--mode" ∉ argv) (h2 : "-m" ∉ argv) :
    parseModeFlag argv = none ∧
    (∀ (mode : Option String) (shuffle : Bool) (shards : Nat),
      scriptDatasetConstruction mode shuffle shards
        = Except.ok (ASRTFRecordDatasetArgs.mk mode shuffle shards)) ∧
    scriptDatasetConstruction (some "bogus") false 16
      = Except.ok (ASRTFRecordDatasetArgs.mk (some "bogus") false 16) ∧
    "bogus" ∉ validStages := by
  refine ⟨parseModeFrom_no_flag argv none h1 h2, fun _ _ _ => rfl, rfl, by decide⟩

/-- Witness for `mode_flag_not_validated`: an invocation passing only a config
file and a transcript list parses the mode as `None`. -/
theorem mode_flag_not_validated_witness :
    parseModeFlag ["--config", "cfg.yml", "transcripts.tsv"] = none ∧
    (∀ (mode : Option String) (shuffle : Bool) (shards : Nat),
      scriptDatasetConstruction mode shuffle shards
        = Except.ok (ASRTFRecordDatasetArgs.mk mode shuffle shards)) ∧
    scriptDatasetConstruction (some "bogus") false 16
      = Except.ok (ASRTFRecordDatasetArgs.mk (some "bogus") false 16) ∧
    "bogus" ∉ validStages :=
  mode_flag_not_validated ["--config", "cfg.yml", "transcripts.tsv"]
    (by decide) (by decide)
